import Mathlib

/-!
# MyEasyOCR — verification of the core logic

Shallow embedding of the repository's core components:

* `extract_text` — the result-formatting part of `OCREngine.extract_text`
  (`ocr_engine.py`): the recognizer's output, a list of
  `(bbox, text, confidence)` triples, is turned into a result dictionary.
  The file-reading and decoding part is abstracted into the input list
  (an `OcrOutcome` at the orchestrator level).
* `correct_text` — `LLMCorrector.correct_text` (`llm_corrector.py`): the
  retry loop around the HTTP POST to the local generation endpoint.  The
  network is modelled as a function `server : Nat → HttpOutcome` giving the
  outcome of the POST made on each successive attempt; the returned
  `CorrectTrace` records the result dictionary together with how many POSTs
  were made and how many `time.sleep(1)` calls ran.
* `process_single_image` / `process_directory` — the batch orchestrator
  (`main.py`): per-file try/except producing one record per file.

Confidences and coordinates are modelled as rationals.
-/

/-- One recognizer output triple `(bbox, text, confidence)` as returned by
`reader.readtext` in `ocr_engine.py`. -/
structure Triple where
  bbox : List (ℚ × ℚ)
  text : String
  confidence : ℚ
deriving Repr, DecidableEq

/-- The dictionary returned by `OCREngine.extract_text`:
`{'full_text', 'confidence_avg', 'num_words', 'details'}`. -/
structure RecognitionResult where
  full_text : String
  confidence_avg : ℚ
  num_words : Nat
  details : List Triple
deriving Repr, DecidableEq

/-- `OCREngine.extract_text` (`ocr_engine.py`, lines 83-117), from the point
where the recognizer has produced `results`: if `results` is empty, return the
empty result; otherwise collect the texts and confidences of all triples,
join the texts with single spaces, and average the confidences.  The code
performs no confidence filtering, no sorting, and no line grouping. -/
def extract_text (results : List Triple) : RecognitionResult :=
  if results.isEmpty then
    { full_text := "", confidence_avg := 0, num_words := 0, details := [] }
  else
    let texts := results.map (·.text)
    let confidences := results.map (·.confidence)
    { full_text := String.intercalate " " texts
      confidence_avg := confidences.sum / (confidences.length : ℚ)
      num_words := texts.length
      details := results }

/-- Spec-side definition (from the spec's words, for comparison with the code):
the number of triples whose confidence is at least the threshold, i.e. the
count remaining after "discard triples with `confidence < confidenceThreshold`". -/
def countConfAtLeast (results : List Triple) (threshold : ℚ) : Nat :=
  (results.filter (fun t => threshold ≤ t.confidence)).length

/-- Python's `str.strip()`: remove leading and trailing whitespace.
Defined structurally on the character list so that it evaluates inside the
kernel. -/
def strip (s : String) : String :=
  ⟨List.reverse (List.dropWhile Char.isWhitespace
    (List.reverse (List.dropWhile Char.isWhitespace s.data)))⟩

/-- What one `requests.post(self.api_url, ...)` call inside
`LLMCorrector.correct_text` produces, as the surrounding try/except observes
it.  `ok s` is an HTTP 200 whose JSON body has `response` field `s`;
`httpError` is a non-200 status with its body text; the remaining
constructors are the exception cases. -/
inductive HttpOutcome where
  | ok (responseField : String)
  | httpError (status : Nat) (body : String)
  | timeout
  | connectionError
  | otherError (msg : String)
deriving Repr, DecidableEq

/-- The `error` values `correct_text` can return, one constructor per
`return` site in `llm_corrector.py`.  `message` renders the exact Python
string: `emptyText` is the code's `'빈 텍스트'` ("empty text"), `timeout` is
`'요청 타임아웃'` ("request timeout"), `connRefused` is
`'Ollama 서버 연결 불가'` ("Ollama server unreachable"), and `maxRetries` is
`'최대 재시도 횟수 초과'` ("max retry count exceeded"). -/
inductive CorrError where
  | emptyText
  | http (status : Nat) (body : String)
  | timeout
  | connRefused
  | other (msg : String)
  | maxRetries
deriving Repr, DecidableEq

/-- The Python error string carried by each `CorrError`. -/
def CorrError.message : CorrError → String
  | .emptyText => "빈 텍스트"
  | .http status body => "HTTP " ++ toString status ++ ": " ++ body
  | .timeout => "요청 타임아웃"
  | .connRefused => "Ollama 서버 연결 불가"
  | .other msg => msg
  | .maxRetries => "최대 재시도 횟수 초과"

/-- The dictionary returned by `LLMCorrector.correct_text`: the `'model'` key
is present only on success, the `'error'` key only on failure. -/
structure CorrectionResult where
  original_text : String
  corrected_text : String
  success : Bool
  error : Option CorrError := none
  model : Option String := none
deriving Repr, DecidableEq

/-- A run of `correct_text` together with its observable effects: the number
of HTTP POSTs issued and the number of `time.sleep(1)` calls executed. -/
structure CorrectTrace where
  result : CorrectionResult
  requests : Nat
  sleeps : Nat
deriving Repr, DecidableEq

/-- The `for attempt in range(max_retries)` loop of
`LLMCorrector.correct_text` (`llm_corrector.py`, lines 107-185).
`remaining` counts the attempts still available (the final attempt is the
one with `remaining = 0` after the current one, matching Python's
`attempt == max_retries - 1`); `attempt` is the 0-based attempt index fed to
the server model.  When the loop exhausts without a terminal return, the
post-loop `'최대 재시도 횟수 초과'` ("max retries exceeded") dictionary is
returned. -/
def correctLoop (text model : String) (server : Nat → HttpOutcome) :
    Nat → Nat → CorrectTrace
  | _, 0 =>
    { result := { original_text := text, corrected_text := text,
                  success := false, error := some .maxRetries }
      requests := 0, sleeps := 0 }
  | attempt, remaining + 1 =>
    match server attempt with
    | .ok responseField =>
      { result := { original_text := text,
                    corrected_text := strip responseField,
                    success := true, model := some model }
        requests := 1, sleeps := 0 }
    | .httpError status body =>
      if remaining = 0 then
        { result := { original_text := text, corrected_text := text,
                      success := false, error := some (.http status body) }
          requests := 1, sleeps := 0 }
      else
        let rest := correctLoop text model server (attempt + 1) remaining
        { result := rest.result, requests := rest.requests + 1,
          sleeps := rest.sleeps + 1 }
    | .timeout =>
      if remaining = 0 then
        { result := { original_text := text, corrected_text := text,
                      success := false, error := some .timeout }
          requests := 1, sleeps := 0 }
      else
        let rest := correctLoop text model server (attempt + 1) remaining
        { result := rest.result, requests := rest.requests + 1,
          sleeps := rest.sleeps + 1 }
    | .connectionError =>
      { result := { original_text := text, corrected_text := text,
                    success := false, error := some .connRefused }
        requests := 1, sleeps := 0 }
    | .otherError msg =>
      if remaining = 0 then
        { result := { original_text := text, corrected_text := text,
                      success := false, error := some (.other msg) }
          requests := 1, sleeps := 0 }
      else
        let rest := correctLoop text model server (attempt + 1) remaining
        { result := rest.result, requests := rest.requests + 1,
          sleeps := rest.sleeps + 1 }

/-- `LLMCorrector.correct_text` (`llm_corrector.py`, lines 67-185).  Python's
guard `if not text or not text.strip()` is equivalent to `text.strip() == ''`,
i.e. `strip text = ""`; in that case the empty-text failure dictionary (with
`corrected_text = ''`) is returned without any HTTP request.  Otherwise the
retry loop runs with `max_retries` attempts. -/
def correct_text (text : String) (server : Nat → HttpOutcome)
    (max_retries : Nat) (model : String) : CorrectTrace :=
  if strip text = "" then
    { result := { original_text := text, corrected_text := "",
                  success := false, error := some .emptyText }
      requests := 0, sleeps := 0 }
  else
    correctLoop text model server 0 max_retries

/-- What the recognition stage does for one file, as `process_single_image`
observes it: either `extract_text`'s input triples are available, or an
exception with message `msg` was raised (file missing, undecodable image, or
a recognizer failure). -/
inductive OcrOutcome where
  | ok (triples : List Triple)
  | err (msg : String)
deriving Repr, DecidableEq

/-- The successful per-image record assembled by `process_single_image`
(`main.py`, lines 72-86): filename, the OCR fields, and the correction
fields (with `'model'` defaulted to `'unknown'` when absent). -/
structure SuccessRecord where
  filename : String
  raw_text : String
  confidence : ℚ
  word_count : Nat
  corrected_text : String
  correction_success : Bool
  correction_model : String
  correction_error : Option CorrError
deriving Repr, DecidableEq

/-- A per-image record: either the full success dictionary or the
`{'filename', 'error'}` dictionary built in the except branch of
`process_single_image` (`main.py`, lines 90-95). -/
inductive ProcessingRecord where
  | success (r : SuccessRecord)
  | failure (filename : String) (error : String)
deriving Repr, DecidableEq

/-- Whether a record is a full success record (no `'error'` key at top level). -/
def ProcessingRecord.isSuccess : ProcessingRecord → Bool
  | .success _ => true
  | .failure _ _ => false

/-- `process_single_image` (`main.py`, lines 37-95): run recognition; on an
exception return `{'filename', 'error'}`; otherwise run `correct_text` on the
extracted `full_text` and assemble the record, substituting the raw text for
the corrected text when correction did not succeed (lines 66-69). -/
def process_single_image (filename : String) (ocr : OcrOutcome)
    (server : Nat → HttpOutcome) (max_retries : Nat) (model : String) :
    ProcessingRecord :=
  match ocr with
  | .err msg => .failure filename msg
  | .ok triples =>
    let ocr_result := extract_text triples
    let raw_text := ocr_result.full_text
    let corr := (correct_text raw_text server max_retries model).result
    let corrected_text := if corr.success then corr.corrected_text else raw_text
    .success
      { filename := filename
        raw_text := raw_text
        confidence := ocr_result.confidence_avg
        word_count := ocr_result.num_words
        corrected_text := corrected_text
        correction_success := corr.success
        correction_model := corr.model.getD "unknown"
        correction_error := corr.error }

/-- `process_directory` (`main.py`, lines 174-187): process each file in
order with `process_single_image` and collect all records into the summary
list, one record per file, failures included. -/
def process_directory (files : List (String × OcrOutcome))
    (server : Nat → HttpOutcome) (max_retries : Nat) (model : String) :
    List ProcessingRecord :=
  files.map fun f => process_single_image f.1 f.2 server max_retries model

/-! ## Helper lemmas -/

/-- Every failure return inside the retry loop, and the post-loop return,
keep `original_text = text` and set `corrected_text` back to `text`. -/
theorem correctLoop_fallback (text model : String) (server : Nat → HttpOutcome) :
    ∀ remaining attempt,
      (correctLoop text model server attempt remaining).result.original_text = text ∧
      ((correctLoop text model server attempt remaining).result.success = false →
        (correctLoop text model server attempt remaining).result.corrected_text = text) := by
  intro remaining
  induction remaining with
  | zero => intro attempt; simp [correctLoop]
  | succ n ih =>
    intro attempt
    cases h : server attempt with
    | ok s => simp [correctLoop, h]
    | httpError st body =>
      by_cases hn : n = 0
      · simp [correctLoop, h, hn]
      · simpa [correctLoop, h, hn] using ih (attempt + 1)
    | timeout =>
      by_cases hn : n = 0
      · simp [correctLoop, h, hn]
      · simpa [correctLoop, h, hn] using ih (attempt + 1)
    | connectionError => simp [correctLoop, h]
    | otherError msg =>
      by_cases hn : n = 0
      · simp [correctLoop, h, hn]
      · simpa [correctLoop, h, hn] using ih (attempt + 1)

/-- As long as at least one attempt remains, the retry loop returns from one
of its in-loop `return` sites, never with the post-loop
`'최대 재시도 횟수 초과'` ("max retries exceeded") dictionary. -/
theorem correctLoop_error_ne_maxRetries (text model : String)
    (server : Nat → HttpOutcome) :
    ∀ remaining attempt, remaining ≠ 0 →
      (correctLoop text model server attempt remaining).result.error ≠
        some CorrError.maxRetries := by
  intro remaining
  induction remaining with
  | zero => intro attempt h; exact absurd rfl h
  | succ n ih =>
    intro attempt _
    cases h : server attempt with
    | ok s => simp [correctLoop, h]
    | httpError st body =>
      by_cases hn : n = 0
      · simp [correctLoop, h, hn]
      · simpa [correctLoop, h, hn] using ih (attempt + 1) hn
    | timeout =>
      by_cases hn : n = 0
      · simp [correctLoop, h, hn]
      · simpa [correctLoop, h, hn] using ih (attempt + 1) hn
    | connectionError => simp [correctLoop, h]
    | otherError msg =>
      by_cases hn : n = 0
      · simp [correctLoop, h, hn]
      · simpa [correctLoop, h, hn] using ih (attempt + 1) hn

/-! ## Claim C1 -/

/-- Claim C1 counterexample: for the whitespace-only input `" "` the code
returns `success = false` with `corrected_text = ''`, which differs from
`original_text = " "`; so the invariant "if `success` is false,
`correctedText` equals `originalText`" does not hold for all inputs
including whitespace-only text. -/
theorem C1_counterexample :
    (correct_text " " (fun _ => HttpOutcome.connectionError) 3 "mistral").result.success
        = false ∧
    (correct_text " " (fun _ => HttpOutcome.connectionError) 3 "mistral").result.corrected_text
      ≠ (correct_text " " (fun _ => HttpOutcome.connectionError) 3 "mistral").result.original_text := by
  exact ⟨by decide, by decide⟩

/-- Claim C1 (amended): for every call to `correct_text`, if the returned
result has `success = false`, then `original_text` is the input text and
`corrected_text` equals the input text — except when the input is empty or
whitespace-only, in which case `corrected_text` is the empty string (equal
to the input exactly when the input was empty). -/
theorem correct_text_failure_fallback (text model : String)
    (server : Nat → HttpOutcome) (max_retries : Nat)
    (h : (correct_text text server max_retries model).result.success = false) :
    (correct_text text server max_retries model).result.original_text = text ∧
    (correct_text text server max_retries model).result.corrected_text =
      (if strip text = "" then "" else text) := by
  by_cases ht : strip text = ""
  · simp [correct_text, ht]
  · simp only [correct_text, if_neg ht] at h ⊢
    exact ⟨(correctLoop_fallback text model server max_retries 0).1,
           (correctLoop_fallback text model server max_retries 0).2 h⟩

/-- Witness for C1 (amended) at the concrete failing call
`correct_text "a" (connection refused) 3 "mistral"`. -/
theorem correct_text_failure_fallback_witness :
    (correct_text "a" (fun _ => HttpOutcome.connectionError) 3 "mistral").result.original_text
        = "a" ∧
    (correct_text "a" (fun _ => HttpOutcome.connectionError) 3 "mistral").result.corrected_text
        = (if strip "a" = "" then "" else "a") :=
  correct_text_failure_fallback "a" "mistral" (fun _ => HttpOutcome.connectionError) 3 (by decide)

/-! ## Claim C2 -/

/-- Claim C2 counterexample: for the single triple with confidence `3/10` and
threshold `1/2`, the adapter reports `num_words = 1` while the number of
triples with confidence at least the threshold is `0`: low-confidence
triples are not discarded. -/
theorem C2_counterexample :
    (extract_text [⟨[], "a", 3/10⟩]).num_words ≠
      countConfAtLeast [⟨[], "a", 3/10⟩] (1/2) := by
  norm_num [extract_text, countConfAtLeast, List.filter]

/-- Claim C2 (amended): `num_words` equals the total number of recognized
triples — `extract_text` performs no confidence filtering at all. -/
theorem extract_text_num_words_eq_length (results : List Triple) :
    (extract_text results).num_words = results.length := by
  rcases results with _ | ⟨t, ts⟩
  · rfl
  · simp [extract_text]

/-! ## Claim C3 -/

/-- Claim C3 counterexample: for the triples
`[("10,10","Hello",0.9), ("10,40","World",0.8)]` the code produces
`full_text = "Hello World"`, not the claimed line-mode `"Hello\nWorld"` —
no line-grouping mode exists in `extract_text`. -/
theorem C3_counterexample :
    (extract_text [⟨[(10,10)], "Hello", 9/10⟩, ⟨[(10,40)], "World", 8/10⟩]).full_text
      ≠ "Hello\nWorld" := by
  decide

/-- Claim C3 (amended): for the triples
`[("10,10","Hello",0.9), ("10,40","World",0.8)]` the adapter returns
`full_text = "Hello World"` (all fragments joined with single spaces),
`confidence_avg = 0.85` and `num_words = 2`. -/
theorem extract_text_hello_world :
    (extract_text [⟨[(10,10)], "Hello", 9/10⟩, ⟨[(10,40)], "World", 8/10⟩]).full_text
        = "Hello World" ∧
    (extract_text [⟨[(10,10)], "Hello", 9/10⟩, ⟨[(10,40)], "World", 8/10⟩]).confidence_avg
        = (0.85 : ℚ) ∧
    (extract_text [⟨[(10,10)], "Hello", 9/10⟩, ⟨[(10,40)], "World", 8/10⟩]).num_words
        = 2 := by
  refine ⟨by decide, ?_, by decide⟩
  norm_num [extract_text]

/-! ## Claim C4 -/

/-- Claim C4 counterexample: a nonempty triple set in which every confidence
is below the threshold `1/2` is not mapped to the empty result: the code
keeps the low-confidence triple, returning `num_words = 1` and
`full_text = "a"`. -/
theorem C4_counterexample :
    (∀ t ∈ [(⟨[], "a", 3/10⟩ : Triple)], t.confidence < 1/2) ∧
    (extract_text [⟨[], "a", 3/10⟩]).num_words ≠ 0 ∧
    (extract_text [⟨[], "a", 3/10⟩]).full_text ≠ "" := by
  refine ⟨?_, by decide, by decide⟩
  norm_num

/-- Claim C4 (amended): when the recognizer returns no triples at all, the
adapter returns `full_text = ""`, `confidence_avg = 0.0`, `num_words = 0`
(and, being a total function, raises no error); low-confidence triples are
not discarded, so a nonempty all-below-threshold set is processed like any
other. -/
theorem extract_text_empty_input :
    extract_text [] =
      { full_text := "", confidence_avg := 0, num_words := 0, details := [] } :=
  rfl

/-! ## Claim C5 -/

/-- Claim C5 counterexample: for the non-empty but whitespace-only text
`" "`, `correct_text` with `max_retries = 3` against an always-503 server
makes 0 HTTP requests, not 3 — the empty-text guard fires first. -/
theorem C5_counterexample :
    (correct_text " " (fun _ => HttpOutcome.httpError 503 "Service Unavailable") 3
        "mistral").requests ≠ 3 := by
  decide

/-- Claim C5 (amended): for every text that is non-empty after stripping
whitespace, `correct_text` with `max_retries = 3` against a server that
always answers HTTP 503 makes exactly 3 HTTP requests with a 1-second wait
between consecutive attempts (2 sleeps for 3 attempts), and returns
`success = false`, `corrected_text` equal to the original text, and the
status code and body recorded as the error (`CorrError.http 503 body`,
whose message is `"HTTP 503: " ++ body`). -/
theorem correct_text_http503_exhausts_retries (text body model : String)
    (h : strip text ≠ "") :
    (correct_text text (fun _ => HttpOutcome.httpError 503 body) 3 model).requests = 3 ∧
    (correct_text text (fun _ => HttpOutcome.httpError 503 body) 3 model).sleeps = 2 ∧
    (correct_text text (fun _ => HttpOutcome.httpError 503 body) 3 model).result.success
        = false ∧
    (correct_text text (fun _ => HttpOutcome.httpError 503 body) 3 model).result.corrected_text
        = text ∧
    (correct_text text (fun _ => HttpOutcome.httpError 503 body) 3 model).result.error
        = some (CorrError.http 503 body) := by
  simp [correct_text, h, correctLoop]

/-- Witness for C5 (amended) at text `"abc"` and body `"oops"`. -/
theorem correct_text_http503_exhausts_retries_witness :
    (correct_text "abc" (fun _ => HttpOutcome.httpError 503 "oops") 3 "mistral").requests
        = 3 ∧
    (correct_text "abc" (fun _ => HttpOutcome.httpError 503 "oops") 3 "mistral").sleeps
        = 2 :=
  ⟨(correct_text_http503_exhausts_retries "abc" "oops" "mistral" (by decide)).1,
   (correct_text_http503_exhausts_retries "abc" "oops" "mistral" (by decide)).2.1⟩

/-! ## Claim C6 -/

/-- Claim C6 counterexample: for the non-empty but whitespace-only text
`" "`, `correct_text` against a connection-refusing server makes 0 HTTP
requests, not 1 — the empty-text guard fires first. -/
theorem C6_counterexample :
    (correct_text " " (fun _ => HttpOutcome.connectionError) 3 "mistral").requests ≠ 1 := by
  decide

/-- Claim C6 (amended): for every text that is non-empty after stripping
whitespace, `correct_text` (with the default `max_retries = 3`) against a
server that refuses the connection makes exactly 1 HTTP request and returns
immediately with `success = false` and `corrected_text` equal to the
original text, with no retry and no retry delay (`sleeps = 0`). -/
theorem correct_text_connection_refused_fatal (text model : String)
    (h : strip text ≠ "") :
    (correct_text text (fun _ => HttpOutcome.connectionError) 3 model).requests = 1 ∧
    (correct_text text (fun _ => HttpOutcome.connectionError) 3 model).sleeps = 0 ∧
    (correct_text text (fun _ => HttpOutcome.connectionError) 3 model).result.success
        = false ∧
    (correct_text text (fun _ => HttpOutcome.connectionError) 3 model).result.corrected_text
        = text ∧
    (correct_text text (fun _ => HttpOutcome.connectionError) 3 model).result.error
        = some CorrError.connRefused := by
  simp [correct_text, h, correctLoop]

/-- Witness for C6 (amended) at text `"abc"`. -/
theorem correct_text_connection_refused_fatal_witness :
    (correct_text "abc" (fun _ => HttpOutcome.connectionError) 3 "mistral").requests = 1 ∧
    (correct_text "abc" (fun _ => HttpOutcome.connectionError) 3 "mistral").sleeps = 0 :=
  ⟨(correct_text_connection_refused_fatal "abc" "mistral" (by decide)).1,
   (correct_text_connection_refused_fatal "abc" "mistral" (by decide)).2.1⟩

/-! ## Claim C7 -/

/-- Claim C7: for every input whose `strip` is empty (empty or
whitespace-only text), `correct_text` returns immediately with
`success = false` and the empty-text error (`CorrError.emptyText`, whose
message is the code's `'빈 텍스트'`, "empty text"), making zero HTTP
requests — the server function is never consulted. -/
theorem correct_text_empty_text_no_request (text : String)
    (server : Nat → HttpOutcome) (max_retries : Nat) (model : String)
    (h : strip text = "") :
    (correct_text text server max_retries model).requests = 0 ∧
    (correct_text text server max_retries model).sleeps = 0 ∧
    (correct_text text server max_retries model).result.success = false ∧
    (correct_text text server max_retries model).result.error
        = some CorrError.emptyText ∧
    CorrError.emptyText.message = "빈 텍스트" := by
  simp [correct_text, h, CorrError.message]

/-- Witness for C7 at the empty text `""` with `max_retries = 3`. -/
theorem correct_text_empty_text_no_request_witness :
    (correct_text "" (fun _ => HttpOutcome.ok "X") 3 "mistral").requests = 0 ∧
    (correct_text "" (fun _ => HttpOutcome.ok "X") 3 "mistral").result.error
        = some CorrError.emptyText :=
  ⟨(correct_text_empty_text_no_request "" (fun _ => HttpOutcome.ok "X") 3 "mistral"
      (by decide)).1,
   (correct_text_empty_text_no_request "" (fun _ => HttpOutcome.ok "X") 3 "mistral"
      (by decide)).2.2.2.1⟩

/-! ## Claim C8 -/

/-- Claim C8 counterexample: for the non-empty but whitespace-only text
`" "`, `correct_text` against a server replying HTTP 200 with
`{"response": "X"}` returns `success = false` and makes no request — the
empty-text guard fires before the server is contacted. -/
theorem C8_counterexample :
    (" " : String) ≠ "" ∧
    (correct_text " " (fun _ => HttpOutcome.ok "X") 3 "mistral").result.success = false ∧
    (correct_text " " (fun _ => HttpOutcome.ok "X") 3 "mistral").requests = 0 := by
  exact ⟨by decide, by decide, by decide⟩

/-- Claim C8 (amended): for every text that is non-empty after stripping
whitespace and every `max_retries ≥ 1`, when the server replies HTTP 200
with `{"response": x}`, `correct_text` returns on the first attempt with
`success = true` and `corrected_text = strip x` (the response trimmed of
surrounding whitespace), making exactly one request and no sleep regardless
of `max_retries`. -/
theorem correct_text_http200_first_attempt (text x model : String)
    (max_retries : Nat) (h : strip text ≠ "") (hr : 1 ≤ max_retries) :
    (correct_text text (fun _ => HttpOutcome.ok x) max_retries model).requests = 1 ∧
    (correct_text text (fun _ => HttpOutcome.ok x) max_retries model).sleeps = 0 ∧
    (correct_text text (fun _ => HttpOutcome.ok x) max_retries model).result.success
        = true ∧
    (correct_text text (fun _ => HttpOutcome.ok x) max_retries model).result.corrected_text
        = strip x ∧
    (correct_text text (fun _ => HttpOutcome.ok x) max_retries model).result.original_text
        = text := by
  obtain ⟨n, rfl⟩ : ∃ n, max_retries = n + 1 :=
    ⟨max_retries - 1, (Nat.succ_pred_eq_of_pos hr).symm⟩
  simp [correct_text, h, correctLoop]

/-- Witness for C8 (amended) at text `"abc"`, response `" X "`,
`max_retries = 5`. -/
theorem correct_text_http200_first_attempt_witness :
    (correct_text "abc" (fun _ => HttpOutcome.ok " X ") 5 "mistral").requests = 1 ∧
    (correct_text "abc" (fun _ => HttpOutcome.ok " X ") 5 "mistral").result.corrected_text
        = strip " X " :=
  ⟨(correct_text_http200_first_attempt "abc" " X " "mistral" 5 (by decide) (by norm_num)).1,
   (correct_text_http200_first_attempt "abc" " X " "mistral" 5 (by decide)
      (by norm_num)).2.2.2.1⟩

/-! ## Claim C9 -/

/-- Claim C9: a batch over 3 files in which file 2's recognition raises an
error produces a summary with exactly 3 records in processing order; record
2 is the `{'filename', 'error'}` dictionary carrying only the filename and
the error message, and files 1 and 3 are processed to completion (full
success records) — one file's failure never aborts the batch. -/
theorem process_directory_failure_isolated (n1 n2 n3 : String)
    (t1 t3 : List Triple) (msg : String) (server : Nat → HttpOutcome)
    (max_retries : Nat) (model : String) :
    process_directory
        [(n1, OcrOutcome.ok t1), (n2, OcrOutcome.err msg), (n3, OcrOutcome.ok t3)]
        server max_retries model =
      [process_single_image n1 (OcrOutcome.ok t1) server max_retries model,
       ProcessingRecord.failure n2 msg,
       process_single_image n3 (OcrOutcome.ok t3) server max_retries model] ∧
    (process_single_image n1 (OcrOutcome.ok t1) server max_retries model).isSuccess
        = true ∧
    (process_single_image n3 (OcrOutcome.ok t3) server max_retries model).isSuccess
        = true := by
  refine ⟨?_, rfl, rfl⟩
  simp [process_directory, process_single_image]

/-! ## Claim C10 -/

/-- Claim C10: for every text that is non-empty after stripping whitespace,
calling `correct_text` with `max_retries = 0` makes zero HTTP requests and
returns the post-loop failure with `corrected_text` equal to the original
text and the max-retries-exceeded error (`CorrError.maxRetries`, the code's
`'최대 재시도 횟수 초과'`); and for every `max_retries ≥ 1` the post-loop
return is never reached: the result's error is never
`CorrError.maxRetries`. -/
theorem correct_text_zero_retries_and_loop_returns (text model : String)
    (server : Nat → HttpOutcome) (h : strip text ≠ "") :
    ((correct_text text server 0 model).requests = 0 ∧
     (correct_text text server 0 model).result.success = false ∧
     (correct_text text server 0 model).result.corrected_text = text ∧
     (correct_text text server 0 model).result.error = some CorrError.maxRetries) ∧
    ∀ max_retries, 1 ≤ max_retries →
      (correct_text text server max_retries model).result.error ≠
        some CorrError.maxRetries := by
  constructor
  · simp [correct_text, h, correctLoop]
  · intro r hr
    simp only [correct_text, if_neg h]
    exact correctLoop_error_ne_maxRetries text model server r 0
      (Nat.one_le_iff_ne_zero.mp hr)

/-- Witness for C10 at text `"abc"` against an always-timeout server, with
`max_retries = 0` for the first part and `max_retries = 2` for the second. -/
theorem correct_text_zero_retries_and_loop_returns_witness :
    (correct_text "abc" (fun _ => HttpOutcome.timeout) 0 "mistral").requests = 0 ∧
    (correct_text "abc" (fun _ => HttpOutcome.timeout) 2 "mistral").result.error ≠
      some CorrError.maxRetries :=
  ⟨(correct_text_zero_retries_and_loop_returns "abc" "mistral"
      (fun _ => HttpOutcome.timeout) (by decide)).1.1,
   (correct_text_zero_retries_and_loop_returns "abc" "mistral"
      (fun _ => HttpOutcome.timeout) (by decide)).2 2 (by norm_num)⟩
